import Mathlib

/-!
Shallow embedding of the NullAgent escalation workflow
(`src/NullableAnnotationWorkflow.py`) and its agents
(`src/agents/nullinfer.py`, `src/agents/nullfix.py`, `src/agents/nullfocus.py`).

Conventions of the embedding:

* A NullAway warning is a Python dict with string keys and values, embedded as
  an association list (`StrDict`).
* The external collaborators (NullAway checker, Slicer, VGR, Helper search and
  the LLM backend) are out-of-scope interfaces; they are parameters collected
  in `Env`.  The checker is a schedule: `schedule.getD i []` is the warning set
  the checker reports in its i-th state; `null_away.run()` advances the index
  (`nullAwayRun`); `getWarnings`/`hasWarnings` read the current state.
* LLM traffic: `respond msgs` is the text the backend returns when an attempt
  succeeds, and `fails n` says whether the n-th attempt (a global attempt
  counter threaded through the run) fails with a transient RetryError.
  `Agent.send_message` itself is modelled from the spec, since
  src/agents/agent.py is not in the tree: per spec section 6 it sends an
  ordered list of role-tagged blocks and returns text, and per section 7 a
  transient failure surfaces as a RetryError.
* The `retry` decorator (external `retry` library, `tries=3, delay=5`) is
  embedded as `retryCall body 3`: up to three attempts, retrying on RetryError
  only; the inter-attempt delay has no observable effect in this model.
* Python attribute errors are embedded explicitly: `workflowAttrs` is the set
  of attributes `NullableAnnotationWorkflow.__init__` creates and
  `nullFocusMethods` the set of methods a `NullFocus` object has; accessing a
  missing one raises `PyErr.attributeError`, exactly where the source would.
* Each run produces a trace (`List Ev`) of the observable collaborator calls,
  in the order the source issues them.
-/

abbrev StrDict := List (String × String)

abbrev Warning := StrDict

inductive PyErr where
  | retryError : PyErr
  | attributeError : String → PyErr
  | keyError : String → PyErr
deriving DecidableEq, Repr

deriving instance DecidableEq for Except

structure Msg where
  role : String
  content : String
deriving DecidableEq, Repr

structure Env where
  schedule : List (List Warning)
  getCodeSlice : Warning → String
  summarizeSlice : String → String
  respond : List Msg → String
  fails : Nat → Bool
  searchSolutions : String → String
  nullinferSys : String
  nullinferEnd : String
  nullfixSys : String
  nullfixEnd : String

/-- Workflow run state: the verifier's state index and the global LLM attempt
counter. -/
structure WSt where
  vidx : Nat
  att : Nat
deriving DecidableEq, Repr

inductive Ev where
  | enterLevel : Nat → Ev
  | reverify : Nat → Ev
  | placeInitialAnnotations : Ev
  | vgrRefactor : Warning → Ev
  | summarizeEv : String → Ev
  | nullInferEv : String → String → Ev
  | nullFocusEv : Warning → Ev
  | helperEv : String → Ev
  | nullFixEv : String → String → String → Ev
deriving DecidableEq, Repr

/-- `null_away.getWarnings()`: the warning set of the checker's current state. -/
def verifierWarnings (env : Env) (st : WSt) : List Warning :=
  env.schedule.getD st.vidx []

/-- `null_away.hasWarnings()`. -/
def hasWarnings (env : Env) (st : WSt) : Bool :=
  !(verifierWarnings env st).isEmpty

/-- `null_away.run()`: re-executes the checker, advancing to its next state. -/
def nullAwayRun (st : WSt) : WSt :=
  ⟨st.vidx + 1, st.att⟩

/-- Python `d.get(k, v)` on a string dict. -/
def dictGetD (d : StrDict) (k v : String) : String :=
  (List.lookup k d).getD v

/-- Python `d[k]` on a string dict: KeyError when the key is absent. -/
def dictIndex (d : StrDict) (k : String) : Except PyErr String :=
  match List.lookup k d with
  | some v => Except.ok v
  | none => Except.error (PyErr.keyError k)

/-- Python `d[k] = v` on a string dict: overwrite or append. -/
def dictSet (d : StrDict) (k v : String) : StrDict :=
  if (List.lookup k d).isSome then
    d.map (fun p => if p.1 = k then (k, v) else p)
  else
    d ++ [(k, v)]

/-- Apply a list of field writes to a dict. -/
def applyWrites (writes : List (String × String)) (d : StrDict) : StrDict :=
  writes.foldl (fun acc kv => dictSet acc kv.1 kv.2) d

/-- Modelled from the spec: `Agent.send_message` (src/agents/agent.py is not in
the source tree).  Spec section 6: the generative collaborator consumes an
ordered sequence of role-tagged text blocks and returns text; section 7: a
transient failure surfaces as RetryError.  The n-th attempt fails iff
`env.fails n`. -/
def sendMessage (env : Env) (msgs : List Msg) (att : Nat) : Except PyErr String × Nat :=
  if env.fails att then (Except.error PyErr.retryError, att + 1)
  else (Except.ok (env.respond msgs), att + 1)

/-- The `retry` decorator of the external `retry` library, specialised to the
exception tuple `(RetryError,)`: up to `tries` attempts, retrying only on
RetryError, re-raising it once the attempts are exhausted; other errors
propagate immediately.  The `delay` argument has no observable effect here. -/
def retryCall (body : Nat → Except PyErr String × Nat) : Nat → Nat → Except PyErr String × Nat
  | 0, att => (Except.error PyErr.retryError, att)
  | t + 1, att =>
    match body att with
    | (Except.ok r, a) => (Except.ok r, a)
    | (Except.error PyErr.retryError, a) =>
      if t = 0 then (Except.error PyErr.retryError, a) else retryCall body t a
    | (Except.error e, a) => (Except.error e, a)

/-- Python `str.strip()`: remove leading and trailing whitespace.  (Defined
structurally over the character list so that concrete runs reduce.) -/
def pyStrip (s : String) : String :=
  String.mk (((s.data.dropWhile Char.isWhitespace).reverse.dropWhile Char.isWhitespace).reverse)

/-- `parse_response` of NullInfer and NullFix (identical bodies):
`response.strip() if response else ""`; on a string argument this is a strip. -/
def parseResponse (response : String) : String :=
  pyStrip response

/-- `NullInfer.__generate_prompt(code_segment, summary)`: the summary block is
appended only when `summary` is truthy, i.e. non-empty. -/
def nullInferPrompt (code_segment summary : String) : String :=
  if summary = "" then
    "Analyze the following Java code and add @Nullable annotations where appropriate:\n"
      ++ code_segment ++ "\n"
  else
    "Analyze the following Java code and add @Nullable annotations where appropriate:\n"
      ++ code_segment ++ "\n" ++ "\nSummary of the code:\n" ++ summary ++ "\n"

/-- The message list `NullInfer.place_nullable_annotations` sends. -/
def nullInferMsgs (env : Env) (code_segment summary : String) : List Msg :=
  [⟨"system", env.nullinferSys⟩,
   ⟨"user", nullInferPrompt code_segment summary ++ "\n" ++ env.nullinferEnd⟩]

/-- Body of `NullInfer.place_nullable_annotations` (inside the retry wrapper). -/
def nullInferBody (env : Env) (code_segment summary : String) (att : Nat) :
    Except PyErr String × Nat :=
  match sendMessage env (nullInferMsgs env code_segment summary) att with
  | (Except.ok r, a) => (Except.ok (parseResponse r), a)
  | (Except.error e, a) => (Except.error e, a)

/-- `NullInfer.place_nullable_annotations`, decorated
`@retry((RetryError,), tries=3, delay=5)` (src/agents/nullinfer.py line 39). -/
def place_nullable_annotations (env : Env) (code_segment summary : String) (att : Nat) :
    Except PyErr String × Nat :=
  retryCall (nullInferBody env code_segment summary) 3 att

/-- `NullFix.generate_prompt(code_segment, context, solution_report)`. -/
def nullFixPrompt (code_segment context solution_report : String) : String :=
  "Apply @Nullable annotations to the following code based on the context:\n"
    ++ code_segment ++ "\n" ++ "Context:\n" ++ context
    ++ "\nSolution Report:\n" ++ solution_report ++ "\n"

/-- The message list `NullFix.place_annotations` sends. -/
def nullFixMsgs (env : Env) (code_segment context solution_report : String) : List Msg :=
  [⟨"system", env.nullfixSys⟩,
   ⟨"user", nullFixPrompt code_segment context solution_report ++ "\n" ++ env.nullfixEnd⟩]

/-- Body of `NullFix.place_annotations` (inside the retry wrapper). -/
def nullFixBody (env : Env) (code_segment context solution_report : String) (att : Nat) :
    Except PyErr String × Nat :=
  match sendMessage env (nullFixMsgs env code_segment context solution_report) att with
  | (Except.ok r, a) => (Except.ok (parseResponse r), a)
  | (Except.error e, a) => (Except.error e, a)

/-- `NullFix.place_annotations`, decorated
`@retry((RetryError,), tries=3, delay=5)` (src/agents/nullfix.py line 43; note
the source spells the decorator this way although nullfix.py never imports
`RetryError` — a latent import-time NameError; the decorator is embedded as
declared). -/
def place_annotations (env : Env) (code_segment context solution_report : String) (att : Nat) :
    Except PyErr String × Nat :=
  retryCall (nullFixBody env code_segment context solution_report) 3 att

/-- `NullFocus.gather_dependencies`: returns a fixed dependency string
(src/agents/nullfocus.py line 23), ignoring its argument. -/
def gather_dependencies (_code_segment : String) : String :=
  "Dependencies: Analysis of classes, methods, and variables"

/-- `NullFocus.generate_prompt(code_segment, dependencies)`. -/
def nullFocusPrompt (code_segment dependencies : String) : String :=
  "Analyze the following code segment for nullability context:\n"
    ++ code_segment ++ "\n\n" ++ "Dependencies:\n" ++ dependencies ++ "\n"

/-- The message list `NullFocus.get_context` sends; the code segment is read
with `warning.get("code_segment", "")`. -/
def nullFocusMsgs (warning : Warning) : List Msg :=
  [⟨"system", "Analyze nullability context."⟩,
   ⟨"user", nullFocusPrompt (dictGetD warning "code_segment" "")
      (gather_dependencies (dictGetD warning "code_segment" ""))⟩]

/-- `NullFocus.get_context(warning)` (src/agents/nullfocus.py lines 38-60): no
retry wrapper; returns the dict
`{"context": response.strip(), "dependencies": dependencies}`. -/
def get_context (env : Env) (warning : Warning) (att : Nat) :
    Except PyErr StrDict × Nat :=
  match sendMessage env (nullFocusMsgs warning) att with
  | (Except.ok response, a) =>
    (Except.ok [("context", pyStrip response),
                ("dependencies", gather_dependencies (dictGetD warning "code_segment" ""))], a)
  | (Except.error e, a) => (Except.error e, a)

/-- Field writes `NullFocus.get_context` performs on its `warning` argument:
the body (src/agents/nullfocus.py lines 38-60) only reads
`warning.get("code_segment", "")` and contains no assignment into the dict. -/
def getContextWarningWrites : List (String × String) := []

/-- Attributes created by `NullableAnnotationWorkflow.__init__`
(src/NullableAnnotationWorkflow.py lines 19-28).  There is no `summarizer`,
although `level_two` dereferences `self.summarizer`. -/
def workflowAttrs : List String :=
  ["annotator", "null_away", "vgr", "slicer", "null_infer", "null_focus", "null_fix", "helper"]

/-- Methods a `NullFocus` object has: those defined in src/agents/nullfocus.py,
plus `send_message` from the Agent base class (modelled from the spec:
src/agents/agent.py is not in the tree and spec section 6 gives the generative
collaborator the single operation `respond`, i.e. `send_message`).  Note the
name is `get_context`, not `getContext`. -/
def nullFocusMethods : List String :=
  ["gather_dependencies", "generate_prompt", "get_context", "send_message"]

/-- `NullableAnnotationWorkflow.level_one`: whole-unit initial annotator pass,
one VGR refactor per warning of the current check, then a checker re-run. -/
def level_one (env : Env) (st : WSt) : WSt × List Ev :=
  let warnings := verifierWarnings env st
  (nullAwayRun st,
    Ev.enterLevel 1 :: Ev.placeInitialAnnotations ::
      (warnings.map Ev.vgrRefactor ++ [Ev.reverify 1]))

/-- One iteration of `level_two`'s per-warning loop: slice, summarize when the
slice exceeds 300 (dereferencing the missing `self.summarizer` attribute),
then invoke NullInfer.  On success returns the new attempt counter. -/
def levelTwoIssue (env : Env) (warning : Warning) (att : Nat) :
    Except PyErr Nat × List Ev :=
  let code_slice := env.getCodeSlice warning
  if code_slice.length > 300 then
    if workflowAttrs.contains "summarizer" then
      let summary := env.summarizeSlice code_slice
      match place_nullable_annotations env code_slice summary att with
      | (Except.ok _, a) => (Except.ok a, [Ev.summarizeEv code_slice, Ev.nullInferEv code_slice summary])
      | (Except.error e, _) => (Except.error e, [Ev.summarizeEv code_slice, Ev.nullInferEv code_slice summary])
    else
      (Except.error (PyErr.attributeError "summarizer"), [])
  else
    match place_nullable_annotations env code_slice "" att with
    | (Except.ok _, a) => (Except.ok a, [Ev.nullInferEv code_slice ""])
    | (Except.error e, _) => (Except.error e, [Ev.nullInferEv code_slice ""])

/-- A level's per-warning loop: iterations run strictly in sequence and an
uncaught error aborts the loop, keeping the events of the completed part. -/
def levelLoop (step : Warning → Nat → Except PyErr Nat × List Ev) :
    List Warning → Nat → Except PyErr Nat × List Ev
  | [], att => (Except.ok att, [])
  | w :: ws, att =>
    match step w att with
    | (Except.ok a, evs) =>
      let rest := levelLoop step ws a
      (rest.1, evs ++ rest.2)
    | (Except.error e, evs) => (Except.error e, evs)

/-- `NullableAnnotationWorkflow.level_two`: fetch the current warnings, run the
per-warning loop, then re-run the checker. -/
def level_two (env : Env) (st : WSt) : Except PyErr WSt × List Ev :=
  let warnings := verifierWarnings env st
  match levelLoop (levelTwoIssue env) warnings st.att with
  | (Except.ok a, evs) => (Except.ok ⟨st.vidx + 1, a⟩, Ev.enterLevel 2 :: (evs ++ [Ev.reverify 2]))
  | (Except.error e, evs) => (Except.error e, Ev.enterLevel 2 :: evs)

/-- The context string `get_context` derives for a warning when the LLM call
succeeds. -/
def nullContextOf (env : Env) (warning : Warning) : String :=
  pyStrip (env.respond (nullFocusMsgs warning))

/-- One iteration of `level_three`'s per-warning loop: NullFocus context,
Helper solution search, then NullFix on `warning["code_segment"]`
(a KeyError when the key is absent, raised after the Helper call since Python
evaluates the arguments of line 118 left to right). -/
def levelThreeIssue (env : Env) (warning : Warning) (att : Nat) :
    Except PyErr Nat × List Ev :=
  match get_context env warning att with
  | (Except.error e, _) => (Except.error e, [Ev.nullFocusEv warning])
  | (Except.ok ctxd, a) =>
    match dictIndex ctxd "context" with
    | Except.error e => (Except.error e, [Ev.nullFocusEv warning])
    | Except.ok null_context =>
      let solution_report := env.searchSolutions null_context
      match dictIndex warning "code_segment" with
      | Except.error e => (Except.error e, [Ev.nullFocusEv warning, Ev.helperEv null_context])
      | Except.ok code_segment =>
        match place_annotations env code_segment null_context solution_report a with
        | (Except.ok _, a2) =>
          (Except.ok a2,
           [Ev.nullFocusEv warning, Ev.helperEv null_context,
            Ev.nullFixEv code_segment null_context solution_report])
        | (Except.error e, _) =>
          (Except.error e,
           [Ev.nullFocusEv warning, Ev.helperEv null_context,
            Ev.nullFixEv code_segment null_context solution_report])

/-- `NullableAnnotationWorkflow.level_three`. -/
def level_three (env : Env) (st : WSt) : Except PyErr WSt × List Ev :=
  let warnings := verifierWarnings env st
  match levelLoop (levelThreeIssue env) warnings st.att with
  | (Except.ok a, evs) => (Except.ok ⟨st.vidx + 1, a⟩, Ev.enterLevel 3 :: (evs ++ [Ev.reverify 3]))
  | (Except.error e, evs) => (Except.error e, Ev.enterLevel 3 :: evs)

/-- `NullableAnnotationWorkflow.execute`: Level 1 unconditionally, Level 2 when
the checker still has warnings, Level 3 when it still has warnings after that
(the second check is evaluated in the source whether or not Level 2 ran). -/
def execute (env : Env) : Except PyErr Unit × List Ev :=
  match level_one env ⟨0, 0⟩ with
  | (st1, evs1) =>
    if hasWarnings env st1 then
      match level_two env st1 with
      | (Except.error e, evs2) => (Except.error e, evs1 ++ evs2)
      | (Except.ok st2, evs2) =>
        if hasWarnings env st2 then
          match level_three env st2 with
          | (Except.error e, evs3) => (Except.error e, evs1 ++ evs2 ++ evs3)
          | (Except.ok _, evs3) => (Except.ok (), evs1 ++ evs2 ++ evs3)
        else (Except.ok (), evs1 ++ evs2)
    else
      if hasWarnings env st1 then
        match level_three env st1 with
        | (Except.error e, evs3) => (Except.error e, evs1 ++ evs3)
        | (Except.ok _, evs3) => (Except.ok (), evs1 ++ evs3)
      else (Except.ok (), evs1)

/-- A Training Sample: the tuple `(code_slice, context, annotated_code,
new_warnings)` that `NullFix.train` appends to `self.training_data`. -/
structure TrainSample where
  code_slice : String
  context : String
  annotated_code : String
  new_warnings : List Warning
deriving DecidableEq, Repr

/-- The per-warning loop of `NullFix.train` (src/agents/nullfix.py lines
76-87): slice, then `null_focus.getContext(warning)` — NullFocus has no
`getContext` method (the method is `get_context`), so the lookup raises
AttributeError; the rest of the body as the source writes it: NullFix on the
slice with the fixed training solution report, a checker re-run, the corpus
append, and the `fixerPro.fineTune` refinement step (which does not change the
corpus). -/
def trainLoop (env : Env) : List Warning → WSt → List TrainSample →
    Except PyErr Unit × WSt × List TrainSample
  | [], st, corpus => (Except.ok (), st, corpus)
  | w :: ws, st, corpus =>
    let code_slice := env.getCodeSlice w
    if nullFocusMethods.contains "getContext" then
      match get_context env w st.att with
      | (Except.error e, _) => (Except.error e, st, corpus)
      | (Except.ok ctxd, a) =>
        match dictIndex ctxd "context" with
        | Except.error e => (Except.error e, st, corpus)
        | Except.ok context =>
          let solution_report := "Initial training solution analysis"
          match place_annotations env code_slice context solution_report a with
          | (Except.error e, _) => (Except.error e, st, corpus)
          | (Except.ok annotated_code, a2) =>
            let st2 : WSt := ⟨st.vidx + 1, a2⟩
            let new_warnings := verifierWarnings env st2
            trainLoop env ws st2 (corpus ++ [⟨code_slice, context, annotated_code, new_warnings⟩])
    else
      (Except.error (PyErr.attributeError "getContext"), st, corpus)

/-- `NullFix.train(null_away, slicer, null_focus)`: iterate the loop over the
checker's current warnings. -/
def train (env : Env) (st : WSt) (corpus : List TrainSample) :
    Except PyErr Unit × WSt × List TrainSample :=
  trainLoop env (verifierWarnings env st) st corpus

/-- Marker events (level entries and checker re-runs), as opposed to
collaborator-call events. -/
def Ev.isMarker : Ev → Bool
  | Ev.enterLevel _ => true
  | Ev.reverify _ => true
  | _ => false

/-- The level-entry marker of an event, if any. -/
def evMarker : Ev → Option Nat
  | Ev.enterLevel k => some k
  | _ => none

/-- The sequence of level-entry markers of a trace, in order. -/
def levelMarkers (tr : List Ev) : List Nat :=
  tr.filterMap evMarker

theorem levelMarkers_append (a b : List Ev) :
    levelMarkers (a ++ b) = levelMarkers a ++ levelMarkers b :=
  List.filterMap_append a b evMarker

theorem evMarker_eq_none (e : Ev) (h : e.isMarker = false) : evMarker e = none := by
  cases e <;> simp [Ev.isMarker] at h ⊢ <;> rfl

theorem levelMarkers_map_vgr (l : List Warning) :
    levelMarkers (l.map Ev.vgrRefactor) = [] := by
  unfold levelMarkers
  rw [List.filterMap_map]
  exact List.filterMap_eq_nil_iff.mpr (fun a _ => rfl)

theorem levelTwoIssue_no_marker (env : Env) (w : Warning) (att : Nat) :
    ∀ e ∈ (levelTwoIssue env w att).2, e.isMarker = false := by
  intro e he
  cases e <;> first
  | rfl
  | (exfalso; unfold levelTwoIssue at he; repeat' split at he <;> try simp_all)

theorem levelThreeIssue_no_marker (env : Env) (w : Warning) (att : Nat) :
    ∀ e ∈ (levelThreeIssue env w att).2, e.isMarker = false := by
  intro e he
  cases e <;> first
  | rfl
  | (exfalso; unfold levelThreeIssue at he; repeat' split at he <;> try simp_all)

theorem levelLoop_no_marker (step : Warning → Nat → Except PyErr Nat × List Ev)
    (h : ∀ w att e, e ∈ (step w att).2 → e.isMarker = false) :
    ∀ ws att e, e ∈ (levelLoop step ws att).2 → e.isMarker = false := by
  intro ws
  induction ws with
  | nil => intro att e he; simp [levelLoop] at he
  | cons w ws ih =>
    intro att e he
    unfold levelLoop at he
    rcases hs : step w att with ⟨r, evs⟩
    rw [hs] at he
    cases r with
    | error e2 =>
      simp at he
      exact h w att e (by rw [hs]; simpa using he)
    | ok a =>
      simp at he
      rcases he with he | he
      · exact h w att e (by rw [hs]; simpa using he)
      · exact ih a e he

theorem get_context_ok (env : Env) (w : Warning) (att : Nat) (ctxd : StrDict) (a : Nat)
    (h : get_context env w att = (Except.ok ctxd, a)) :
    ctxd = [("context", nullContextOf env w),
            ("dependencies", gather_dependencies (dictGetD w "code_segment" ""))] ∧
      a = att + 1 := by
  unfold get_context sendMessage at h
  cases hf : env.fails att <;> rw [hf] at h <;> simp_all [nullContextOf]

theorem dictGetD_of_dictIndex (d : StrDict) (k v c : String)
    (h : dictIndex d k = Except.ok c) : dictGetD d k v = c := by
  unfold dictIndex at h
  unfold dictGetD
  cases hl : List.lookup k d <;> rw [hl] at h <;> simp_all

theorem levelTwoIssue_ok (env : Env) (w : Warning) (att : Nat) (a : Nat) (evs : List Ev)
    (h : levelTwoIssue env w att = (Except.ok a, evs)) :
    evs = [Ev.nullInferEv (env.getCodeSlice w) ""] ∧
      (env.getCodeSlice w).length ≤ 300 := by
  unfold levelTwoIssue at h
  by_cases hlen : (env.getCodeSlice w).length > 300
  · rw [if_pos hlen] at h
    rw [if_neg (by decide)] at h
    simp at h
  · rw [if_neg hlen] at h
    rcases hp : place_nullable_annotations env (env.getCodeSlice w) "" att with ⟨r, n⟩
    rw [hp] at h
    cases r with
    | error e => simp at h
    | ok v => simp at h; exact ⟨h.2.symm, by omega⟩

theorem levelLoopTwo_ok (env : Env) :
    ∀ ws att a evs, levelLoop (levelTwoIssue env) ws att = (Except.ok a, evs) →
      evs = ws.map (fun w => Ev.nullInferEv (env.getCodeSlice w) "") := by
  intro ws
  induction ws with
  | nil => intro att a evs h; simp [levelLoop] at h; simp [← h.2]
  | cons w ws ih =>
    intro att a evs h
    unfold levelLoop at h
    rcases hs : levelTwoIssue env w att with ⟨r, evs1⟩
    rw [hs] at h
    cases r with
    | error e => simp at h
    | ok a1 =>
      rcases hl : levelLoop (levelTwoIssue env) ws a1 with ⟨r2, evs2⟩
      simp [hl] at h
      obtain ⟨hr, hevs⟩ := h
      rw [← hevs, (levelTwoIssue_ok env w att a1 evs1 hs).1, ih a1 a evs2 (by rw [hl, hr])]
      simp

theorem levelThreeIssue_ok (env : Env) (w : Warning) (att : Nat) (a : Nat) (evs : List Ev)
    (h : levelThreeIssue env w att = (Except.ok a, evs)) :
    evs = [Ev.nullFocusEv w, Ev.helperEv (nullContextOf env w),
           Ev.nullFixEv (dictGetD w "code_segment" "") (nullContextOf env w)
             (env.searchSolutions (nullContextOf env w))] := by
  unfold levelThreeIssue at h
  rcases hg : get_context env w att with ⟨rg, ag⟩
  rw [hg] at h
  cases rg with
  | error e => simp at h
  | ok ctxd =>
    obtain ⟨hctx, -⟩ := get_context_ok env w att ctxd ag hg
    subst hctx
    have hd : dictIndex [("context", nullContextOf env w),
          ("dependencies", gather_dependencies (dictGetD w "code_segment" ""))] "context" =
        Except.ok (nullContextOf env w) := by simp [dictIndex, List.lookup]
    dsimp only at h
    rw [hd] at h
    rcases hk : dictIndex w "code_segment" with c | cs
    · rw [hk] at h; simp at h
    · rw [hk] at h
      dsimp only at h
      rw [dictGetD_of_dictIndex w "code_segment" "" cs hk]
      rcases hp : place_annotations env cs (nullContextOf env w)
          (env.searchSolutions (nullContextOf env w)) ag with ⟨r, n⟩
      rw [hp] at h
      cases r with
      | error e => simp at h
      | ok v => simp at h; exact h.2.symm

theorem levelLoopThree_ok (env : Env) :
    ∀ ws att a evs, levelLoop (levelThreeIssue env) ws att = (Except.ok a, evs) →
      evs = ws.flatMap (fun w =>
        [Ev.nullFocusEv w, Ev.helperEv (nullContextOf env w),
         Ev.nullFixEv (dictGetD w "code_segment" "") (nullContextOf env w)
           (env.searchSolutions (nullContextOf env w))]) := by
  intro ws
  induction ws with
  | nil => intro att a evs h; simp [levelLoop] at h; simp [← h.2]
  | cons w ws ih =>
    intro att a evs h
    unfold levelLoop at h
    rcases hs : levelThreeIssue env w att with ⟨r, evs1⟩
    rw [hs] at h
    cases r with
    | error e => simp at h
    | ok a1 =>
      rcases hl : levelLoop (levelThreeIssue env) ws a1 with ⟨r2, evs2⟩
      simp [hl] at h
      obtain ⟨hr, hevs⟩ := h
      rw [← hevs, levelThreeIssue_ok env w att a1 evs1 hs, ih a1 a evs2 (by rw [hl, hr])]
      simp

theorem execute_of_clean (env : Env) (h : hasWarnings env ⟨1, 0⟩ = false) :
    execute env = (Except.ok (), (level_one env ⟨0, 0⟩).2) := by
  simp [execute, level_one, nullAwayRun, h]

theorem execute_of_l2_error (env : Env) (e : PyErr) (levs : List Ev)
    (h : hasWarnings env ⟨1, 0⟩ = true)
    (hl : levelLoop (levelTwoIssue env) (verifierWarnings env ⟨1, 0⟩) 0 = (Except.error e, levs)) :
    execute env = (Except.error e, (level_one env ⟨0, 0⟩).2 ++ (Ev.enterLevel 2 :: levs)) := by
  simp [execute, level_one, nullAwayRun, h, level_two, hl]

theorem execute_of_l2_ok_clean (env : Env) (a : Nat) (levs : List Ev)
    (h : hasWarnings env ⟨1, 0⟩ = true)
    (hl : levelLoop (levelTwoIssue env) (verifierWarnings env ⟨1, 0⟩) 0 = (Except.ok a, levs))
    (h2 : hasWarnings env ⟨2, 0⟩ = false) :
    execute env = (Except.ok (),
      (level_one env ⟨0, 0⟩).2 ++ (Ev.enterLevel 2 :: (levs ++ [Ev.reverify 2]))) := by
  have h2a : hasWarnings env ⟨2, a⟩ = false := h2
  simp [execute, level_one, nullAwayRun, h, level_two, hl, h2a]

theorem execute_of_l3_ok (env : Env) (a a3 : Nat) (levs levs3 : List Ev)
    (h : hasWarnings env ⟨1, 0⟩ = true)
    (hl : levelLoop (levelTwoIssue env) (verifierWarnings env ⟨1, 0⟩) 0 = (Except.ok a, levs))
    (h2 : hasWarnings env ⟨2, 0⟩ = true)
    (hl3 : levelLoop (levelThreeIssue env) (verifierWarnings env ⟨2, a⟩) a = (Except.ok a3, levs3)) :
    execute env = (Except.ok (),
      (level_one env ⟨0, 0⟩).2 ++ (Ev.enterLevel 2 :: (levs ++ [Ev.reverify 2])) ++
        (Ev.enterLevel 3 :: (levs3 ++ [Ev.reverify 3]))) := by
  have h2a : hasWarnings env ⟨2, a⟩ = true := h2
  simp [execute, level_one, nullAwayRun, h, level_two, hl, h2a, level_three, hl3]

theorem execute_of_l3_error (env : Env) (a : Nat) (e : PyErr) (levs levs3 : List Ev)
    (h : hasWarnings env ⟨1, 0⟩ = true)
    (hl : levelLoop (levelTwoIssue env) (verifierWarnings env ⟨1, 0⟩) 0 = (Except.ok a, levs))
    (h2 : hasWarnings env ⟨2, 0⟩ = true)
    (hl3 : levelLoop (levelThreeIssue env) (verifierWarnings env ⟨2, a⟩) a = (Except.error e, levs3)) :
    execute env = (Except.error e,
      (level_one env ⟨0, 0⟩).2 ++ (Ev.enterLevel 2 :: (levs ++ [Ev.reverify 2])) ++
        (Ev.enterLevel 3 :: levs3)) := by
  have h2a : hasWarnings env ⟨2, a⟩ = true := h2
  simp [execute, level_one, nullAwayRun, h, level_two, hl, h2a, level_three, hl3]

theorem levelMarkers_level_one (env : Env) :
    levelMarkers (level_one env ⟨0, 0⟩).2 = [1] := by
  simp [level_one, levelMarkers, List.filterMap_cons, List.filterMap_append,
    List.filterMap_map, evMarker]

theorem level_one_no_enter (env : Env) (k : Nat) (hk : k ≠ 1) :
    Ev.enterLevel k ∉ (level_one env ⟨0, 0⟩).2 := by
  simp [level_one, hk]

theorem level_one_no_reverify (env : Env) (k : Nat) (hk : k ≠ 1) :
    Ev.reverify k ∉ (level_one env ⟨0, 0⟩).2 := by
  simp [level_one, hk]

theorem not_mem_of_no_marker (evs : List Ev) (h : ∀ e ∈ evs, e.isMarker = false) (k : Nat) :
    Ev.enterLevel k ∉ evs ∧ Ev.reverify k ∉ evs := by
  constructor <;> intro hm <;> simpa [Ev.isMarker] using h _ hm

theorem levelMarkers_of_no_marker (evs : List Ev) (h : ∀ e ∈ evs, e.isMarker = false) :
    levelMarkers evs = [] :=
  List.filterMap_eq_nil_iff.mpr (fun e he => evMarker_eq_none e (h e he))

theorem levelMarkers_cons_enter (k : Nat) (l : List Ev) :
    levelMarkers (Ev.enterLevel k :: l) = k :: levelMarkers l := by
  simp [levelMarkers, List.filterMap_cons, evMarker]

theorem levelMarkers_append_reverify (l : List Ev) (k : Nat) :
    levelMarkers (l ++ [Ev.reverify k]) = levelMarkers l := by
  rw [levelMarkers_append]
  simp [levelMarkers, evMarker]

theorem levelMarkers_cons_reverify (k : Nat) (l : List Ev) :
    levelMarkers (Ev.reverify k :: l) = levelMarkers l := by
  simp [levelMarkers, List.filterMap_cons, evMarker]

theorem levelMarkers_nil : levelMarkers [] = [] := rfl

/-- C1: in every run of `execute`, Level 2 is entered iff the verifier reports
outstanding issues immediately after Level 1's re-verification, Level 3 is
entered iff Level 2's re-verification took place and the verifier still
reports outstanding issues after it, and the sequence of entered levels is
[1], [1,2] or [1,2,3] — the engine never returns to an earlier level. -/
theorem c1_escalation_policy (env : Env) :
    (Ev.enterLevel 2 ∈ (execute env).2 ↔ hasWarnings env ⟨1, 0⟩ = true) ∧
    (Ev.enterLevel 3 ∈ (execute env).2 ↔
      Ev.reverify 2 ∈ (execute env).2 ∧ hasWarnings env ⟨2, 0⟩ = true) ∧
    (levelMarkers (execute env).2 = [1] ∨ levelMarkers (execute env).2 = [1, 2] ∨
      levelMarkers (execute env).2 = [1, 2, 3]) := by
  have hm1 := levelMarkers_level_one env
  have hne2 := level_one_no_enter env 2 (by decide)
  have hne3 := level_one_no_enter env 3 (by decide)
  have hnr2 := level_one_no_reverify env 2 (by decide)
  cases hW1 : hasWarnings env ⟨1, 0⟩ with
  | false =>
    rw [execute_of_clean env hW1]
    refine ⟨?_, ?_, Or.inl ?_⟩
    · simp [hne2]
    · simp [hne3, hnr2]
    · exact hm1
  | true =>
    rcases hl : levelLoop (levelTwoIssue env) (verifierWarnings env ⟨1, 0⟩) 0 with ⟨r2, levs⟩
    have hnm2 : ∀ e ∈ levs, e.isMarker = false := fun e he =>
      levelLoop_no_marker _ (levelTwoIssue_no_marker env) _ 0 e (by rw [hl]; exact he)
    have hL2e := (not_mem_of_no_marker levs hnm2 3).1
    have hL2r := (not_mem_of_no_marker levs hnm2 2).2
    have hL2m := levelMarkers_of_no_marker levs hnm2
    cases r2 with
    | error e2 =>
      rw [execute_of_l2_error env e2 levs hW1 hl]
      refine ⟨?_, ?_, Or.inr (Or.inl ?_)⟩
      · simp
      · simp [hne3, hnr2, hL2e, hL2r]
      · simp [levelMarkers_append, hm1, levelMarkers_cons_enter, hL2m]
    | ok a =>
      cases hW2 : hasWarnings env ⟨2, 0⟩ with
      | false =>
        rw [execute_of_l2_ok_clean env a levs hW1 hl hW2]
        refine ⟨?_, ?_, Or.inr (Or.inl ?_)⟩
        · simp
        · simp [hne3, hL2e]
        · simp [levelMarkers_append, hm1, levelMarkers_cons_enter,
            levelMarkers_append_reverify, levelMarkers_cons_reverify, levelMarkers_nil, hL2m]
      | true =>
        rcases hl3 : levelLoop (levelThreeIssue env) (verifierWarnings env ⟨2, a⟩) a
          with ⟨r3, levs3⟩
        have hnm3 : ∀ e ∈ levs3, e.isMarker = false := fun e he =>
          levelLoop_no_marker _ (levelThreeIssue_no_marker env) _ a e (by rw [hl3]; exact he)
        have hL3m := levelMarkers_of_no_marker levs3 hnm3
        cases r3 with
        | ok a3 =>
          rw [execute_of_l3_ok env a a3 levs levs3 hW1 hl hW2 hl3]
          refine ⟨?_, ?_, Or.inr (Or.inr ?_)⟩
          · simp
          · simp
          · simp [levelMarkers_append, hm1, levelMarkers_cons_enter,
              levelMarkers_append_reverify, levelMarkers_cons_reverify, levelMarkers_nil,
              hL2m, hL3m]
        | error e3 =>
          rw [execute_of_l3_error env a e3 levs levs3 hW1 hl hW2 hl3]
          refine ⟨?_, ?_, Or.inr (Or.inr ?_)⟩
          · simp
          · simp
          · simp [levelMarkers_append, hm1, levelMarkers_cons_enter,
              levelMarkers_append_reverify, levelMarkers_cons_reverify, levelMarkers_nil,
              hL2m, hL3m]

/-- Events that are invocations of the Level 2 strategy (NullInfer). -/
def isNullInferEv : Ev → Bool
  | Ev.nullInferEv _ _ => true
  | _ => false

/-- Events that are invocations of a Level 3 collaborator
(NullFocus, Helper, NullFix). -/
def isLevelThreeCollabEv : Ev → Bool
  | Ev.nullFocusEv _ => true
  | Ev.helperEv _ => true
  | Ev.nullFixEv _ _ _ => true
  | _ => false

theorem filter_nullInfer_level_one (env : Env) :
    (level_one env ⟨0, 0⟩).2.filter isNullInferEv = [] := by
  simp [level_one, isNullInferEv, List.filter_append, List.filter_cons, List.filter_map]

theorem filter_nullInfer_map (env : Env) (l : List Warning) :
    (l.map (fun w => Ev.nullInferEv (env.getCodeSlice w) "")).filter isNullInferEv =
      l.map (fun w => Ev.nullInferEv (env.getCodeSlice w) "") := by
  apply List.filter_eq_self.mpr
  intro e he
  simp [List.mem_map] at he
  obtain ⟨w, -, rfl⟩ := he
  rfl

/-- C6: in every run where the verifier reports exactly 2 outstanding issues
after Level 1 and 0 after Level 2 (i.e. the Level 2 re-verification took
place), NullInfer is invoked exactly twice — once per issue — and no Level 3
collaborator is invoked. -/
theorem c6_scenario_b (env : Env)
    (h1 : (verifierWarnings env ⟨1, 0⟩).length = 2)
    (h2 : verifierWarnings env ⟨2, 0⟩ = [])
    (h3 : Ev.reverify 2 ∈ (execute env).2) :
    (execute env).2.filter isNullInferEv =
      (verifierWarnings env ⟨1, 0⟩).map (fun w => Ev.nullInferEv (env.getCodeSlice w) "") ∧
    ((execute env).2.filter isNullInferEv).length = 2 ∧
    ∀ e ∈ (execute env).2, isLevelThreeCollabEv e = false := by
  have hW1 : hasWarnings env ⟨1, 0⟩ = true := by
    unfold hasWarnings
    cases hv : verifierWarnings env ⟨1, 0⟩ <;> simp_all
  have hW2 : hasWarnings env ⟨2, 0⟩ = false := by
    simp [hasWarnings, h2]
  rcases hl : levelLoop (levelTwoIssue env) (verifierWarnings env ⟨1, 0⟩) 0 with ⟨r2, levs⟩
  have hnm2 : ∀ e ∈ levs, e.isMarker = false := fun e he =>
    levelLoop_no_marker _ (levelTwoIssue_no_marker env) _ 0 e (by rw [hl]; exact he)
  cases r2 with
  | error e2 =>
    exfalso
    rw [execute_of_l2_error env e2 levs hW1 hl] at h3
    simp [level_one_no_reverify env 2 (by decide),
      (not_mem_of_no_marker levs hnm2 2).2] at h3
  | ok a =>
    have hevs := levelLoopTwo_ok env (verifierWarnings env ⟨1, 0⟩) 0 a levs hl
    rw [execute_of_l2_ok_clean env a levs hW1 hl hW2]
    subst hevs
    refine ⟨?_, ?_, ?_⟩
    · simp [List.filter_append, List.filter_cons, filter_nullInfer_level_one env,
        isNullInferEv, filter_nullInfer_map env]
    · simp [List.filter_append, List.filter_cons, filter_nullInfer_level_one env,
        isNullInferEv, filter_nullInfer_map env, h1]
    · intro e he
      cases e <;> first
      | rfl
      | (exfalso; simp [level_one] at he)

/-- A concrete environment for Scenario B: the initial check is clean, the
check after Level 1 reports two warnings, the check after Level 2 is clean;
every LLM attempt succeeds. -/
def envScenarioB : Env :=
  ⟨[[], [[("id", "w1"), ("code_segment", "int x;")], [("id", "w2"), ("code_segment", "int y;")]]],
   fun _ => "slice", fun s => s, fun _ => "resp", fun _ => false, fun _ => "sols",
   "sys", "end", "fsys", "fend"⟩

theorem c6_scenario_b_w :
    (verifierWarnings envScenarioB ⟨1, 0⟩).length = 2 ∧
    verifierWarnings envScenarioB ⟨2, 0⟩ = [] ∧
    Ev.reverify 2 ∈ (execute envScenarioB).2 ∧
    ((execute envScenarioB).2.filter isNullInferEv).length = 2 ∧
    (∀ e ∈ (execute envScenarioB).2, isLevelThreeCollabEv e = false) :=
  ⟨by decide, by decide, by decide,
   (c6_scenario_b envScenarioB (by decide) (by decide) (by decide)).2.1,
   (c6_scenario_b envScenarioB (by decide) (by decide) (by decide)).2.2⟩

/-- A concrete environment in which the checker's initial state reports one
warning and its state after Level 1's re-verification is clean. -/
def envInitialWarning : Env :=
  ⟨[[[("id", "w0")]]], fun _ => "slice", fun s => s, fun _ => "resp", fun _ => false,
   fun _ => "sols", "sys", "end", "fsys", "fend"⟩

/-- C7, counterexample: a run in which the verifier reports zero outstanding
issues after Level 1 but the workflow nevertheless issued a per-issue VGR
refactor call (for the warning the initial check reported), contradicting the
claim's "with no per-issue refactor calls". -/
theorem c7_counterexample :
    hasWarnings envInitialWarning ⟨1, 0⟩ = false ∧
    (execute envInitialWarning).1 = Except.ok () ∧
    Ev.vgrRefactor [("id", "w0")] ∈ (execute envInitialWarning).2 := by
  decide

/-- C7 (amended): when the verifier reports zero outstanding issues after
Level 1's re-verification, the run completes successfully and its whole trace
is Level 1's: one whole-unit initial-annotator pass, one VGR refactor per
warning of the checker's initial state (none when that state is clean), and
the single re-verification; Levels 2 and 3 are never entered and no Level 2/3
collaborator is called. -/
theorem c7_clean_after_level_one (env : Env) (h : hasWarnings env ⟨1, 0⟩ = false) :
    execute env = (Except.ok (),
      Ev.enterLevel 1 :: Ev.placeInitialAnnotations ::
        ((verifierWarnings env ⟨0, 0⟩).map Ev.vgrRefactor ++ [Ev.reverify 1])) := by
  rw [execute_of_clean env h]
  rfl

theorem c7_clean_after_level_one_w :
    hasWarnings envInitialWarning ⟨1, 0⟩ = false ∧
    execute envInitialWarning = (Except.ok (),
      [Ev.enterLevel 1, Ev.placeInitialAnnotations,
       Ev.vgrRefactor [("id", "w0")], Ev.reverify 1]) :=
  ⟨by decide, by rw [c7_clean_after_level_one envInitialWarning (by decide)]; rfl⟩

/-- C8: when Level 3 completes, its trace is exactly, for every outstanding
warning in order: the NullFocus deep-context derivation, then the Helper
solution search on that derived context, then the NullFix invocation with the
warning's code segment, the derived context and the narrative — followed by
the level's re-verification. -/
theorem c8_level_three_order (env : Env) (st st2 : WSt) (evs : List Ev)
    (h : level_three env st = (Except.ok st2, evs)) :
    evs = Ev.enterLevel 3 ::
      ((verifierWarnings env st).flatMap (fun w =>
        [Ev.nullFocusEv w, Ev.helperEv (nullContextOf env w),
         Ev.nullFixEv (dictGetD w "code_segment" "") (nullContextOf env w)
           (env.searchSolutions (nullContextOf env w))]) ++ [Ev.reverify 3]) := by
  unfold level_three at h
  dsimp only at h
  rcases hl : levelLoop (levelThreeIssue env) (verifierWarnings env st) st.att with ⟨r, levs⟩
  rw [hl] at h
  cases r with
  | error e => simp at h
  | ok a =>
    simp at h
    rw [← h.2, levelLoopThree_ok env _ _ a levs hl]

/-- A concrete environment whose current checker state reports one warning. -/
def envLevelThree : Env :=
  ⟨[[[("code_segment", "cs")]]], fun _ => "slice", fun s => s, fun _ => "resp",
   fun _ => false, fun _ => "sols", "sys", "end", "fsys", "fend"⟩

theorem c8_level_three_order_w :
    level_three envLevelThree ⟨0, 0⟩ = (Except.ok ⟨1, 2⟩,
      [Ev.enterLevel 3, Ev.nullFocusEv [("code_segment", "cs")], Ev.helperEv "resp",
       Ev.nullFixEv "cs" "resp" "sols", Ev.reverify 3]) ∧
    [Ev.enterLevel 3, Ev.nullFocusEv [("code_segment", "cs")], Ev.helperEv "resp",
       Ev.nullFixEv "cs" "resp" "sols", Ev.reverify 3] = Ev.enterLevel 3 ::
      ((verifierWarnings envLevelThree ⟨0, 0⟩).flatMap (fun w =>
        [Ev.nullFocusEv w, Ev.helperEv (nullContextOf envLevelThree w),
         Ev.nullFixEv (dictGetD w "code_segment" "") (nullContextOf envLevelThree w)
           (envLevelThree.searchSolutions (nullContextOf envLevelThree w))]) ++ [Ev.reverify 3]) :=
  ⟨by decide,
   c8_level_three_order envLevelThree ⟨0, 0⟩ ⟨1, 2⟩ _ (by decide)⟩

/-- A 301-character code slice. -/
def slice301 : String := String.mk (List.replicate 301 'x')

/-- Environment whose slicer returns a 301-character slice for every warning;
the check after Level 1 reports one warning. -/
def envLongSlice : Env :=
  ⟨[[], [[("id", "w1")]]], fun _ => slice301, fun s => s, fun _ => "resp",
   fun _ => false, fun _ => "sols", "sys", "end", "fsys", "fend"⟩

/-- Environment whose slicer returns a 5-character slice. -/
def envShortSlice : Env :=
  ⟨[[], [[("id", "w1")]]], fun _ => "short", fun s => s, fun _ => "resp",
   fun _ => false, fun _ => "sols", "sys", "end", "fsys", "fend"⟩

set_option maxRecDepth 4000 in
/-- C2, failing run: a Level 2 issue whose code slice has length 301 is never
summarized — `__init__` creates no `summarizer` attribute, so the run aborts
with AttributeError before any summary or strategy call — while a slice of
length at most 300 is passed to NullInfer with no summary, as claimed. -/
theorem c2_summarizer_missing :
    slice301.length = 301 ∧
    execute envLongSlice = (Except.error (PyErr.attributeError "summarizer"),
      [Ev.enterLevel 1, Ev.placeInitialAnnotations, Ev.reverify 1, Ev.enterLevel 2]) ∧
    levelTwoIssue envShortSlice [("id", "w1")] 0 = (Except.ok 1, [Ev.nullInferEv "short" ""]) ∧
    nullInferPrompt "short" "" =
      "Analyze the following Java code and add @Nullable annotations where appropriate:\nshort\n" := by
  refine ⟨?_, ?_, ?_, ?_⟩ <;> decide

/-- Environment whose LLM fails transiently on the very first attempt and
succeeds afterwards. -/
def envOneFailure : Env :=
  ⟨[[]], fun _ => "s", fun s => s, fun _ => "resp", fun n => n == 0,
   fun _ => "sols", "sys", "end", "fsys", "fend"⟩

/-- C3, counterexample: under one transient failure followed by availability,
the two retry-wrapped annotator calls succeed, but `NullFocus.get_context`
raises the transient RetryError — the retry policy is not applied to it, so it
is not applied uniformly to every generative collaborator call. -/
theorem c3_counterexample :
    (get_context envOneFailure [("code_segment", "cs")] 0).1 = Except.error PyErr.retryError ∧
    (place_nullable_annotations envOneFailure "cs" "" 0).1 = Except.ok "resp" ∧
    (place_annotations envOneFailure "cs" "ctx" "rep" 0).1 = Except.ok "resp" := by
  refine ⟨?_, ?_, ?_⟩ <;> decide

/-- C3 (amended): the retry policy (3 attempts, fixed delay, on RetryError) is
applied to NullInfer.place_nullable_annotations and NullFix.place_annotations,
which both survive a single transient failure; NullFocus.get_context has no
retry wrapper, so a single transient failure there propagates to the caller. -/
theorem c3_retry_coverage (env : Env) (w : Warning) (code summary context report : String)
    (att : Nat) (h0 : env.fails att = true) (h1 : env.fails (att + 1) = false) :
    (get_context env w att).1 = Except.error PyErr.retryError ∧
    (place_nullable_annotations env code summary att).1 =
      Except.ok (parseResponse (env.respond (nullInferMsgs env code summary))) ∧
    (place_annotations env code context report att).1 =
      Except.ok (parseResponse (env.respond (nullFixMsgs env code context report))) := by
  refine ⟨?_, ?_, ?_⟩
  · simp [get_context, sendMessage, h0]
  · simp [place_nullable_annotations, retryCall, nullInferBody, sendMessage, h0, h1]
  · simp [place_annotations, retryCall, nullFixBody, sendMessage, h0, h1]

theorem c3_retry_coverage_w :
    envOneFailure.fails 0 = true ∧ envOneFailure.fails 1 = false ∧
    (get_context envOneFailure [("code_segment", "cs")] 0).1 = Except.error PyErr.retryError ∧
    (place_nullable_annotations envOneFailure "c" "" 0).1 =
      Except.ok (parseResponse (envOneFailure.respond (nullInferMsgs envOneFailure "c" ""))) ∧
    (place_annotations envOneFailure "c" "x" "r" 0).1 =
      Except.ok (parseResponse (envOneFailure.respond (nullFixMsgs envOneFailure "c" "x" "r"))) :=
  ⟨by decide, by decide,
   (c3_retry_coverage envOneFailure [("code_segment", "cs")] "c" "" "x" "r" 0
     (by decide) (by decide)).1,
   (c3_retry_coverage envOneFailure [("code_segment", "cs")] "c" "" "x" "r" 0
     (by decide) (by decide)).2.1,
   (c3_retry_coverage envOneFailure [("code_segment", "cs")] "c" "" "x" "r" 0
     (by decide) (by decide)).2.2⟩

/-- Environment whose LLM fails transiently on attempts 0 and 1 and succeeds
from attempt 2 on. -/
def envTwoFailures : Env :=
  ⟨[[]], fun _ => "s", fun s => s, fun _ => "resp", fun n => decide (n < 2),
   fun _ => "sols", "sys", "end", "fsys", "fend"⟩

/-- Environment whose LLM fails transiently on every attempt. -/
def envAllFail : Env :=
  ⟨[[]], fun _ => "s", fun s => s, fun _ => "resp", fun _ => true,
   fun _ => "sols", "sys", "end", "fsys", "fend"⟩

/-- C4: with retry bound 3, a NullInfer call that fails transiently exactly
twice and then succeeds returns the successful result (after 3 attempts); one
that fails three times raises the fatal RetryError; and in Level 2's issue
loop such an exhausted call aborts the loop at that issue, so no subsequent
issue of the level is processed. -/
theorem c4_retry_bound (env env2 : Env) (code summary : String) (att att2 : Nat)
    (w : Warning) (ws : List Warning)
    (hf0 : env.fails att = true) (hf1 : env.fails (att + 1) = true)
    (hf2 : env.fails (att + 2) = false)
    (hg0 : env2.fails att2 = true) (hg1 : env2.fails (att2 + 1) = true)
    (hg2 : env2.fails (att2 + 2) = true)
    (hslice : (env2.getCodeSlice w).length ≤ 300) :
    place_nullable_annotations env code summary att =
      (Except.ok (parseResponse (env.respond (nullInferMsgs env code summary))), att + 3) ∧
    (place_nullable_annotations env2 code summary att2).1 = Except.error PyErr.retryError ∧
    levelLoop (levelTwoIssue env2) (w :: ws) att2 =
      (Except.error PyErr.retryError, [Ev.nullInferEv (env2.getCodeSlice w) ""]) := by
  have hnot : ¬ (env2.getCodeSlice w).length > 300 := by omega
  refine ⟨?_, ?_, ?_⟩
  · simp [place_nullable_annotations, retryCall, nullInferBody, sendMessage,
      hf0, hf1, hf2, Nat.add_assoc]
  · simp [place_nullable_annotations, retryCall, nullInferBody, sendMessage,
      hg0, hg1, hg2, Nat.add_assoc]
  · simp [levelLoop, levelTwoIssue, hnot, place_nullable_annotations, retryCall,
      nullInferBody, sendMessage, hg0, hg1, hg2, Nat.add_assoc]

theorem c4_retry_bound_w :
    envTwoFailures.fails 0 = true ∧ envTwoFailures.fails 1 = true ∧
    envTwoFailures.fails 2 = false ∧
    envAllFail.fails 0 = true ∧ envAllFail.fails 1 = true ∧ envAllFail.fails 2 = true ∧
    (envAllFail.getCodeSlice [("id", "w1")]).length ≤ 300 ∧
    place_nullable_annotations envTwoFailures "c" "" 0 =
      (Except.ok (parseResponse (envTwoFailures.respond (nullInferMsgs envTwoFailures "c" ""))),
       0 + 3) ∧
    levelLoop (levelTwoIssue envAllFail) [[("id", "w1")], [("id", "w2")]] 0 =
      (Except.error PyErr.retryError,
       [Ev.nullInferEv (envAllFail.getCodeSlice [("id", "w1")]) ""]) :=
  ⟨by decide, by decide, by decide, by decide, by decide, by decide, by decide,
   (c4_retry_bound envTwoFailures envAllFail "c" "" 0 0 [("id", "w1")] [[("id", "w2")]]
     (by decide) (by decide) (by decide) (by decide) (by decide) (by decide) (by decide)).1,
   (c4_retry_bound envTwoFailures envAllFail "c" "" 0 0 [("id", "w1")] [[("id", "w2")]]
     (by decide) (by decide) (by decide) (by decide) (by decide) (by decide) (by decide)).2.2⟩

/-- Environment whose current checker state reports one warning; every LLM
attempt succeeds. -/
def envTrain : Env :=
  ⟨[[[("code_segment", "cs")]]], fun _ => "s", fun s => s, fun _ => "resp",
   fun _ => false, fun _ => "sols", "sys", "end", "fsys", "fend"⟩

/-- C5, failing run: with one outstanding issue, `NullFix.train` raises
AttributeError at `null_focus.getContext` (NullFocus's method is named
`get_context`) before appending any Training Sample, so two consecutive calls
append 0 samples, not I1 + I2; the corpus nevertheless never shrinks — the
loop only ever appends to it. -/
theorem c5_train_no_samples :
    train envTrain ⟨0, 0⟩ [] =
      (Except.error (PyErr.attributeError "getContext"), ⟨0, 0⟩, []) ∧
    (∀ (env : Env) (ws : List Warning) (st : WSt) (corpus : List TrainSample),
      ∃ tail, (trainLoop env ws st corpus).2.2 = corpus ++ tail) := by
  constructor
  · decide
  · intro env ws
    induction ws with
    | nil => intro st corpus; exact ⟨[], by simp [trainLoop]⟩
    | cons w ws ih =>
      intro st corpus
      have hstep : trainLoop env (w :: ws) st corpus =
          (Except.error (PyErr.attributeError "getContext"), st, corpus) := by
        unfold trainLoop
        dsimp only
        rw [if_neg (by decide)]
      exact ⟨[], by rw [hstep]; simp⟩

/-- C9: `NullFocus.get_context` leaves the warning unchanged — the write set
of its body is empty, and its result is a function only of what it reads from
the warning, namely the `"code_segment"` field. -/
theorem c9_get_context_pure :
    (∀ w : Warning, applyWrites getContextWarningWrites w = w) ∧
    (∀ (env : Env) (att : Nat) (w w' : Warning),
      dictGetD w "code_segment" "" = dictGetD w' "code_segment" "" →
      get_context env w att = get_context env w' att) := by
  constructor
  · intro w; rfl
  · intro env att w w' h
    simp [get_context, nullFocusMsgs, h]

theorem c9_get_context_pure_w :
    dictGetD [("code_segment", "cs"), ("id", "7")] "code_segment" "" =
      dictGetD [("code_segment", "cs")] "code_segment" "" ∧
    get_context envLevelThree [("code_segment", "cs"), ("id", "7")] 0 =
      get_context envLevelThree [("code_segment", "cs")] 0 :=
  ⟨by decide,
   c9_get_context_pure.2 envLevelThree 0 [("code_segment", "cs"), ("id", "7")]
     [("code_segment", "cs")] (by decide)⟩

/-- C10: for every warning dict — including one that lacks the
`"code_segment"` key, which is read with default `""` — when the collaborator
responds, `get_context` returns without error a dict holding exactly the keys
`"context"` (the stripped response) and `"dependencies"`. -/
theorem c10_get_context_total (env : Env) (w : Warning) (att : Nat)
    (h : env.fails att = false) :
    get_context env w att =
      (Except.ok [("context", pyStrip (env.respond (nullFocusMsgs w))),
                  ("dependencies", gather_dependencies (dictGetD w "code_segment" ""))],
       att + 1) ∧
    (List.lookup "code_segment" w = none → dictGetD w "code_segment" "" = "") := by
  constructor
  · simp [get_context, sendMessage, h]
  · intro hn; simp [dictGetD, hn]

theorem c10_get_context_total_w :
    envLevelThree.fails 0 = false ∧
    List.lookup "code_segment" [("id", "w")] = none ∧
    get_context envLevelThree [("id", "w")] 0 =
      (Except.ok [("context", pyStrip (envLevelThree.respond (nullFocusMsgs [("id", "w")]))),
                  ("dependencies", gather_dependencies (dictGetD [("id", "w")] "code_segment" ""))],
       1) :=
  ⟨by decide, by decide, by
    have h := (c10_get_context_total envLevelThree [("id", "w")] 0 (by decide)).1
    simpa using h⟩
